import Mathlib

/-!
Shallow embedding of `DynamoDbChatStorage`
(src/python/src/multi_agent_orchestrator/storage/dynamodb_chat_storage.py).

The DynamoDB table is modelled as a list of items keyed by `(PK, SK)`; the
class-level `_chat_cache` dict is an association list from cache keys to
entries.  Python's `time.time()` (seconds) and `int(time.time()*1000)`
(milliseconds) are passed in explicitly as integers.  Fallible code returns
`Except Err`; the runtime errors that can actually arise in the translated
paths are `KeyError` (missing dict key), `IndexError` (subscript out of
range), `TypeError` (iterating a non-list `conversation` value) and a store
failure from `put_item`.
-/

/-- A persisted text content block `{'text': ...}`. -/
structure TextBlock where
  text : String
deriving DecidableEq, Repr

/-- A message `content` value: either a list of blocks or a plain (non-list)
value such as a bare string. -/
inductive Content
  | blocks (bs : List TextBlock)
  | plain (s : String)
deriving DecidableEq, Repr

/-- In-memory `TimestampedMessage` (role, content, timestamp in ms). -/
structure TimestampedMessage where
  role : String
  content : Content
  timestamp : Int
deriving DecidableEq, Repr

/-- In-memory `ConversationMessage` (no timestamp attribute). -/
structure ConversationMessage where
  role : String
  content : Content
deriving DecidableEq, Repr

/-- A message value as returned to Python callers: it may or may not carry a
`timestamp` attribute.  `_remove_timestamps` produces `timestamp = none`;
returning a stored `TimestampedMessage` unchanged keeps `timestamp = some t`. -/
structure PyMsg where
  role : String
  content : Content
  timestamp : Option Int
deriving DecidableEq, Repr

/-- A persisted message record (a dict): any of the three keys may be absent. -/
structure StoredMsg where
  role : Option String
  content : Option Content
  timestamp : Option Int
deriving DecidableEq, Repr

/-- The persisted `conversation` attribute of an item: a list of records, or
some non-list value (which `isinstance(..., list)` rejects). -/
inductive ConvVal
  | list (msgs : List StoredMsg)
  | notList
deriving DecidableEq, Repr

/-- One DynamoDB item.  `expiry` models the optional dynamically-named TTL
attribute `item[self.ttl_key]`. -/
structure TableItem where
  PK : String
  SK : String
  conversation : Option ConvVal
  expiry : Option Int
deriving DecidableEq, Repr

/-- One `_chat_cache` entry: `{'timestamp': fetched_at, 'data': result}`. -/
structure CacheEntry where
  timestamp : Int
  data : List PyMsg
deriving DecidableEq, Repr

/-- The mutable state visible to the storage class: the backing table and the
class-level `_chat_cache` dict. -/
structure StoreState where
  table : List TableItem
  cache : List (String × CacheEntry)
deriving DecidableEq, Repr

/-- Runtime errors of the translated paths. -/
inductive Err
  | keyError (k : String)
  | indexError
  | typeError
  | storeError
deriving DecidableEq, Repr

/-- Instance configuration: `ttl_key` (optional) and `ttl_duration`. -/
structure Config where
  ttlKey : Option String
  ttlDuration : Int
deriving DecidableEq, Repr

/-- Dict lookup (`d[k]` when `k in d`). -/
def dictFind (d : List (String × CacheEntry)) (k : String) : Option CacheEntry :=
  (d.find? (fun p => p.1 == k)).map Prod.snd

/-- Dict deletion (`del d[k]`, a no-op when the key is absent — the code
guards with `if k in d`). -/
def dictDel (d : List (String × CacheEntry)) (k : String) : List (String × CacheEntry) :=
  d.filter (fun p => !(p.1 == k))

/-- Dict insertion (`d[k] = v`): replaces the entry when present. -/
def dictInsert (d : List (String × CacheEntry)) (k : String) (v : CacheEntry) :
    List (String × CacheEntry) :=
  if d.any (fun p => p.1 == k) then d.map (fun p => if p.1 == k then (k, v) else p)
  else d ++ [(k, v)]

/-- Value of `ParticipantRole.ASSISTANT.value`. -/
def assistantRole : String := "assistant"

/-- Keep a `TimestampedMessage` as the Python value it is (timestamp kept). -/
def toPy (m : TimestampedMessage) : PyMsg :=
  ⟨m.role, m.content, some m.timestamp⟩

/-- Model of `_remove_timestamps`: rebuild each message as a `ConversationMessage`
(no timestamp attribute). -/
def remove_timestamps (ms : List TimestampedMessage) : List PyMsg :=
  ms.map (fun m => ⟨m.role, m.content, none⟩)

/-- One step of `_dict_to_conversation`: `TimestampedMessage(role=msg['role'],
content=msg['content'], timestamp=msg['timestamp'])`; a missing key raises
`KeyError` (arguments are evaluated left to right). -/
def dictToMsg (m : StoredMsg) : Except Err TimestampedMessage :=
  match m.role with
  | none => .error (.keyError "role")
  | some r =>
    match m.content with
    | none => .error (.keyError "content")
    | some c =>
      match m.timestamp with
      | none => .error (.keyError "timestamp")
      | some t => .ok ⟨r, c, t⟩

/-- Model of `_dict_to_conversation`: the list comprehension decodes records left to
right, the first missing key aborting the whole call. -/
def dict_to_conversation : List StoredMsg → Except Err (List TimestampedMessage)
  | [] => .ok []
  | m :: ms =>
    match dictToMsg m with
    | .error e => .error e
    | .ok tm =>
      match dict_to_conversation ms with
      | .error e => .error e
      | .ok tms => .ok (tm :: tms)

/-- Modelled from the spec: the Conversation Codec's `encode` (§4.2), i.e.
`conversation_to_dict` from `multi_agent_orchestrator.utils`, whose source is
not under src/ — each message becomes a plain `{role, content, timestamp}`
record. -/
def conversation_to_dict (ms : List TimestampedMessage) : List StoredMsg :=
  ms.map (fun m => ⟨some m.role, some m.content, some m.timestamp⟩)

/-- Model of `_generate_key`. -/
def generate_key (sessionId agentId : String) : String :=
  sessionId ++ "#" ++ agentId

/-- Model of `table.get_item(Key=\x7b'PK': pk, 'SK': sk\x7d)`: at most one item per key. -/
def getItem (table : List TableItem) (pk sk : String) : Option TableItem :=
  table.find? (fun it => it.PK == pk && it.SK == sk)

/-- Model of `table.put_item(Item=item)`: full overwrite of the item with that key. -/
def putItem (table : List TableItem) (it : TableItem) : List TableItem :=
  if table.any (fun x => x.PK == it.PK && x.SK == it.SK) then
    table.map (fun x => if x.PK == it.PK && x.SK == it.SK then it else x)
  else table ++ [it]

/-- Model of `fetch_chat_with_timestamp`: point read, then decode.
`response.get('Item', {}).get('conversation', [])` turns a missing item or a
missing attribute into `[]`; iterating a non-list value raises `TypeError`. -/
def fetch_chat_with_timestamp (st : StoreState) (u s a : String) :
    Except Err (List TimestampedMessage) :=
  match getItem st.table u (generate_key s a) with
  | none => dict_to_conversation []
  | some it =>
    match it.conversation with
    | none => dict_to_conversation []
    | some (.list ms) => dict_to_conversation ms
    | some .notList => .error .typeError

/-- Model of `fetch_chat`: same read with timestamps stripped. -/
def fetch_chat (st : StoreState) (u s a : String) : Except Err (List PyMsg) :=
  (fetch_chat_with_timestamp st u s a).map remove_timestamps

/-- The `new_message` argument of `save_chat_message`:
`Union[ConversationMessage, TimestampedMessage]`. -/
inductive InMsg
  | conv (m : ConversationMessage)
  | timed (m : TimestampedMessage)
deriving DecidableEq, Repr

/-- Accessor `new_message.role`. -/
def InMsg.role : InMsg → String
  | .conv m => m.role
  | .timed m => m.role

/-- Modelled from the spec: the History Policy's `should_suppress` (§4.1),
i.e. `ChatStorage.is_same_role_as_last_message` from the base class, whose
source is not under src/ — true iff the existing conversation is non-empty
and its last entry's role equals the incoming message's role. -/
def is_same_role_as_last_message (existing : List TimestampedMessage) (m : InMsg) : Bool :=
  match existing.getLast? with
  | none => false
  | some last => last.role == m.role

/-- Modelled from the spec: the History Policy's `trim` (§4.1), i.e.
`ChatStorage.trim_conversation` from the base class, whose source is not
under src/ — keep the last `maxSize` entries; absent means unchanged; zero or
negative yields an empty result. -/
def trim_conversation (c : List TimestampedMessage) (maxSize : Option Int) :
    List TimestampedMessage :=
  match maxSize with
  | none => c
  | some n => if n ≤ 0 then [] else c.drop (c.length - n.toNat)

/-- View of `Except` as a sum, to derive decidable equality. -/
def exceptToSum {ε α : Type} : Except ε α → ε ⊕ α
  | .error e => .inl e
  | .ok a => .inr a

instance {ε α : Type} [DecidableEq ε] [DecidableEq α] : DecidableEq (Except ε α) :=
  fun x y =>
    decidable_of_iff (exceptToSum x = exceptToSum y)
      (by cases x <;> cases y <;> simp [exceptToSum])

/-- Result of a save operation: the state as left by the call (also on a
raised error) and the returned value or the propagated error. -/
structure SaveOut where
  state : StoreState
  result : Except Err (List PyMsg)
deriving DecidableEq, Repr

/-- Model of `save_chat_message`.  `nowMs` is `int(time.time()*1000)`, `nowS` is
`int(time.time())`, and `putOk` tells whether `table.put_item` succeeds (its
failure is logged and re-raised). -/
def save_chat_message (cfg : Config) (st : StoreState) (nowMs nowS : Int)
    (putOk : Bool) (u s a : String) (newMessage : InMsg) (maxHist : Option Int) :
    SaveOut :=
  let key := generate_key s a
  let cacheKey := u ++ ":" ++ s
  match fetch_chat_with_timestamp st u s a with
  | .error e => ⟨st, .error e⟩
  | .ok existing =>
    if is_same_role_as_last_message existing newMessage then
      ⟨st, .ok (existing.map toPy)⟩
    else
      let newTm : TimestampedMessage :=
        match newMessage with
        | .conv m => ⟨m.role, m.content, nowMs⟩
        | .timed m => m
      let trimmed := trim_conversation (existing ++ [newTm]) maxHist
      let item : TableItem :=
        ⟨u, key, some (.list (conversation_to_dict trimmed)),
          cfg.ttlKey.map (fun _ => nowS + cfg.ttlDuration)⟩
      let st1 : StoreState := ⟨st.table, dictDel st.cache cacheKey⟩
      if putOk then
        ⟨⟨putItem st1.table item, st1.cache⟩, .ok (remove_timestamps trimmed)⟩
      else
        ⟨st1, .error .storeError⟩

/-- The `new_messages` argument of `save_chat_messages`:
`Union[list[ConversationMessage], list[TimestampedMessage]]`.  The code
checks only the first element's type. -/
inductive Batch
  | convs (ms : List ConversationMessage)
  | timeds (ms : List TimestampedMessage)
deriving DecidableEq, Repr

/-- Whether the batch is the empty list. -/
def Batch.isEmpty : Batch → Bool
  | .convs ms => ms.isEmpty
  | .timeds ms => ms.isEmpty

/-- Tail of `save_chat_messages` after the batch is appended to the existing
conversation: trim, build the item, `put_item` (logged and re-raised on
failure), return the trimmed conversation with timestamps stripped. -/
def saveBulkTail (cfg : Config) (st : StoreState) (nowS : Int) (putOk : Bool)
    (u key : String) (combined : List TimestampedMessage) (maxHist : Option Int) :
    SaveOut :=
  let trimmed := trim_conversation combined maxHist
  let item : TableItem :=
    ⟨u, key, some (.list (conversation_to_dict trimmed)),
      cfg.ttlKey.map (fun _ => nowS + cfg.ttlDuration)⟩
  if putOk then
    ⟨⟨putItem st.table item, st.cache⟩, .ok (remove_timestamps trimmed)⟩
  else
    ⟨st, .error .storeError⟩

/-- Model of `save_chat_messages`.  Subscripting `new_messages[0]` on an empty batch
raises `IndexError` before anything is written.  When the first element is a
`ConversationMessage`, each is rebuilt as a `TimestampedMessage` — its
timestamp default is modelled from the spec (§3: timestamps are assigned at
the moment a message is accepted for storage), the types module not being
under src/. -/
def save_chat_messages (cfg : Config) (st : StoreState) (nowMs nowS : Int)
    (putOk : Bool) (u s a : String) (batch : Batch) (maxHist : Option Int) :
    SaveOut :=
  let key := generate_key s a
  match fetch_chat_with_timestamp st u s a with
  | .error e => ⟨st, .error e⟩
  | .ok existing =>
    match batch with
    | .convs [] => ⟨st, .error .indexError⟩
    | .timeds [] => ⟨st, .error .indexError⟩
    | .convs (m0 :: rest) =>
      saveBulkTail cfg st nowS putOk u key
        (existing ++ ((m0 :: rest).map (fun m => ⟨m.role, m.content, nowMs⟩))) maxHist
    | .timeds (m0 :: rest) =>
      saveBulkTail cfg st nowS putOk u key (existing ++ (m0 :: rest)) maxHist

/-- Python's `str.split(sep)` for a single-character separator: splits on
every occurrence, keeping empty fields. -/
def splitChar (sep : Char) : List Char → List (List Char)
  | [] => [[]]
  | c :: rest =>
    match splitChar sep rest with
    | [] => [[]]
    | g :: gs => if c = sep then [] :: g :: gs else (c :: g) :: gs

/-- Python's `sk.split('#')` as a list of strings. -/
def pySplit (sep : Char) (s : String) : List String :=
  (splitChar sep s.data).map String.mk

/-- Model of `item['SK'].split('#')[1]`: `none` models the `IndexError` when the key
has no `#`. -/
def splitAgent (sk : String) : Option String :=
  (pySplit '#' sk).get? 1

/-- Model of `content[0]['text'] if isinstance(content, list) else content`: the first
block's text of a list content (`none` models the `IndexError` on an empty
list), or the plain value itself. -/
def firstTextVal : Content → Option String
  | .blocks [] => none
  | .blocks (b :: _) => some b.text
  | .plain t => some t

/-- Normalization `content = [\x7b'text': content\x7d]` when content is not a list; a list
content is left unchanged. -/
def normalizeContent : Content → Content
  | .blocks bs => .blocks bs
  | .plain t => .blocks [⟨t⟩]

/-- The per-message body of the aggregation loop: read `msg['content']`,
test `msg['role'] == ParticipantRole.ASSISTANT.value`, prefix the first text
with `"[" + agent_id + "] "` for assistant messages, normalize non-list
content otherwise, then read `int(msg['timestamp'])`. -/
def transformMsg (agentId : String) (m : StoredMsg) : Except Err TimestampedMessage :=
  match m.content with
  | none => .error (.keyError "content")
  | some c =>
    match m.role with
    | none => .error (.keyError "role")
    | some r =>
      let c2 : Except Err Content :=
        if r = assistantRole then
          match firstTextVal c with
          | none => .error .indexError
          | some t => .ok (.blocks [⟨"[" ++ agentId ++ "] " ++ t⟩])
        else .ok (normalizeContent c)
      match c2 with
      | .error e => .error e
      | .ok c3 =>
        match m.timestamp with
        | none => .error (.keyError "timestamp")
        | some t => .ok ⟨r, c3, t⟩

/-- The inner `for msg in conversation` loop for one item: messages are
processed left to right, the first error aborting the whole call. -/
def transformAll (agentId : String) : List StoredMsg → Except Err (List TimestampedMessage)
  | [] => .ok []
  | m :: ms =>
    match transformMsg agentId m with
    | .error e => .error e
    | .ok tm =>
      match transformAll agentId ms with
      | .error e => .error e
      | .ok tms => .ok (tm :: tms)

/-- The outer `for item in response['Items']` loop: an item whose
`conversation` attribute is not a list is logged and skipped (`continue`);
otherwise the agent id is extracted from `SK` and every message is
transformed, all results being appended into one list. -/
def processItems : List TableItem → Except Err (List TimestampedMessage)
  | [] => .ok []
  | it :: rest =>
    match it.conversation with
    | some (.list ms) =>
      match splitAgent it.SK with
      | none => .error .indexError
      | some ag =>
        match transformAll ag ms with
        | .error e => .error e
        | .ok tms =>
          match processItems rest with
          | .error e => .error e
          | .ok tail => .ok (tms ++ tail)
    | _ => processItems rest

/-- Whether a character list begins with another (helper for `begins_with`). -/
def charsBeginWith : List Char → List Char → Bool
  | [], _ => true
  | _ :: _, [] => false
  | p :: ps, c :: cs => p == c && charsBeginWith ps cs

/-- DynamoDB's `begins_with(sk, pre)`. -/
def beginsWith (sk pre : String) : Bool :=
  charsBeginWith pre.data sk.data

/-- The query `PK = :pk AND begins_with(SK, :skPrefix)` with
`:skPrefix = session_id + "#"`. -/
def queryItems (table : List TableItem) (u s : String) : List TableItem :=
  table.filter (fun it => it.PK == u && beginsWith it.SK (s ++ "#"))

/-- The class constant `_cache_ttl = 10` seconds. -/
def cacheTtl : Int := 10

/-- Sort key order used by `all_chats.sort(key=attrgetter('timestamp'))`. -/
def tsLe (x y : TimestampedMessage) : Prop := x.timestamp ≤ y.timestamp

instance : DecidableRel tsLe :=
  fun x y => inferInstanceAs (Decidable (x.timestamp ≤ y.timestamp))

instance : IsTotal TimestampedMessage tsLe :=
  ⟨fun x y => Int.le_total x.timestamp y.timestamp⟩

instance : IsTrans TimestampedMessage tsLe :=
  ⟨fun _ _ _ h1 h2 => Int.le_trans h1 h2⟩

/-- Python's `list.sort` is a stable sort; any stable sort computes the same
list, so the structural `insertionSort` models it exactly. -/
def sortByTs (l : List TimestampedMessage) : List TimestampedMessage :=
  List.insertionSort tsLe l

/-- Model of `_clean_cache`: drop entries older than ten times the cache TTL. -/
def clean_cache (d : List (String × CacheEntry)) (now : Int) :
    List (String × CacheEntry) :=
  d.filter (fun p => !(decide (cacheTtl * 10 < now - p.2.timestamp)))

/-- Result of `fetch_all_chats`: the state as left by the call and the
returned value or the propagated error. -/
structure FetchOut where
  state : StoreState
  result : Except Err (List PyMsg)
deriving DecidableEq, Repr

/-- The cache-miss path of `fetch_all_chats` (everything after the cache
check): query, cache an empty result, otherwise process every item, sort by
timestamp, strip timestamps, cache and return.  `doClean` tells whether the
probabilistic `hash(str(current_time)) % 100 == 0` sweep fires.  An error is
logged and re-raised with no cache entry written. -/
def fetchFresh (st : StoreState) (now : Int) (doClean : Bool) (u s : String)
    (cacheKey : String) : FetchOut :=
  let items := queryItems st.table u s
  if items.isEmpty then
    ⟨⟨st.table, dictInsert st.cache cacheKey ⟨now, []⟩⟩, .ok []⟩
  else
    match processItems items with
    | .error e => ⟨st, .error e⟩
    | .ok allChats =>
      let result := remove_timestamps (sortByTs allChats)
      let cache1 := dictInsert st.cache cacheKey ⟨now, result⟩
      let cache2 := if doClean then clean_cache cache1 now else cache1
      ⟨⟨st.table, cache2⟩, .ok result⟩

/-- Model of `fetch_all_chats`: return the cached data when the entry is younger than
the cache TTL, otherwise take the fresh-query path. -/
def fetch_all_chats (st : StoreState) (now : Int) (doClean : Bool) (u s : String) :
    FetchOut :=
  let cacheKey := u ++ ":" ++ s
  match dictFind st.cache cacheKey with
  | some e =>
    if now - e.timestamp < cacheTtl then ⟨st, .ok e.data⟩
    else fetchFresh st now doClean u s cacheKey
  | none => fetchFresh st now doClean u s cacheKey

/-! Concrete stores used to instantiate the theorems below. -/

/-- A configuration with no TTL attribute. -/
def cfg0 : Config := ⟨none, 3600⟩

/-- Agent A holds `[{user,"hi",t=1}]` and agent B holds
`[{assistant,"hello",t=2}]` for user `u`, session `s`; the cache is empty. -/
def exampleState : StoreState :=
  { table := [⟨"u", "s#A", some (.list [⟨some "user", some (.blocks [⟨"hi"⟩]), some 1⟩]), none⟩,
              ⟨"u", "s#B", some (.list [⟨some "assistant", some (.blocks [⟨"hello"⟩]), some 2⟩]), none⟩],
    cache := [] }

/-- Agent A holds the single user message `{user,"hi",t=5}`. -/
def c2State : StoreState :=
  { table := [⟨"u", "s#A", some (.list [⟨some "user", some (.blocks [⟨"hi"⟩]), some 5⟩]), none⟩],
    cache := [] }

/-- Agent A is intact; agent B's single record lacks the `timestamp` key. -/
def c4State : StoreState :=
  { table := [⟨"u", "s#A", some (.list [⟨some "user", some (.blocks [⟨"hi"⟩]), some 1⟩]), none⟩,
              ⟨"u", "s#B", some (.list [⟨some "assistant", some (.blocks [⟨"hello"⟩]), none⟩]), none⟩],
    cache := [] }

/-- A cache holding an aggregate entry fetched at time 0, over a table where
agent A holds one user message. -/
def c8State : StoreState :=
  { table := [⟨"u", "s#A", some (.list [⟨some "user", some (.blocks [⟨"hi"⟩]), some 1⟩]), none⟩],
    cache := [("u:s", ⟨0, [⟨"user", .blocks [⟨"stale"⟩], none⟩]⟩)] }

/-- Agent A holds one assistant message whose persisted content is the empty
list. -/
def c10State : StoreState :=
  { table := [⟨"u", "s#A", some (.list [⟨some "assistant", some (.blocks []), some 1⟩]), none⟩],
    cache := [] }

/-! Helper lemmas shared by several claims. -/

/-- Deleting a key from the cache dict makes its lookup miss. -/
theorem dictFind_dictDel (d : List (String × CacheEntry)) (k : String) :
    dictFind (dictDel d k) k = none := by
  induction d with
  | nil => rfl
  | cons p d ih =>
    by_cases h : p.1 == k
    · simp only [dictDel, List.filter, h] at ih ⊢
      exact ih
    · simp only [dictDel, dictFind, List.filter, List.find?, h, Bool.not_false] at ih ⊢
      exact ih

/-- A successful `transformAll` relates inputs and outputs pointwise. -/
theorem transformAll_forall2 (ag : String) :
    ∀ (ms : List StoredMsg) (tms : List TimestampedMessage),
      transformAll ag ms = .ok tms →
      List.Forall₂ (fun sm tm => transformMsg ag sm = .ok tm) ms tms := by
  intro ms
  induction ms with
  | nil =>
    intro tms h
    simp only [transformAll] at h
    cases h
    exact List.Forall₂.nil
  | cons m ms ih =>
    intro tms h
    simp only [transformAll] at h
    cases hm : transformMsg ag m with
    | error e => rw [hm] at h; cases h
    | ok tm =>
      rw [hm] at h
      cases hms : transformAll ag ms with
      | error e => rw [hms] at h; cases h
      | ok tms2 =>
        rw [hms] at h
        cases h
        exact List.Forall₂.cons hm (ih tms2 hms)

/-- C10: fetch_aggregate fails (instead of returning a result) on a stored
assistant message whose persisted content is an empty list: the access to the
first content block (`content[0]`) is unguarded and raises `IndexError`. -/
theorem aggregate_empty_assistant_content_fails :
    (fetch_all_chats c10State 0 false "u" "s").result = .error Err.indexError
    ∧ (fetch_all_chats c10State 0 false "u" "s").state = c10State
    ∧ (c10State.table.map TableItem.conversation)
        = [some (.list [⟨some assistantRole, some (.blocks []), some 1⟩])] := by
  decide

/-- C7: `save_chat_messages` called with an empty batch fails before writing
anything: subscripting `new_messages[0]` raises `IndexError` (the failure the
spec's taxonomy files under `InvalidArgument`), and the state is untouched. -/
theorem save_bulk_empty_batch_raises
    (cfg : Config) (st : StoreState) (nowMs nowS : Int) (putOk : Bool)
    (u s a : String) (mh : Option Int) (batch : Batch)
    (existing : List TimestampedMessage)
    (hfetch : fetch_chat_with_timestamp st u s a = .ok existing)
    (hempty : batch.isEmpty = true) :
    (save_chat_messages cfg st nowMs nowS putOk u s a batch mh).result = .error Err.indexError
    ∧ (save_chat_messages cfg st nowMs nowS putOk u s a batch mh).state = st := by
  cases batch with
  | convs ms =>
    cases ms with
    | nil =>
      unfold save_chat_messages
      rw [hfetch]
      exact ⟨rfl, rfl⟩
    | cons m ms => simp [Batch.isEmpty] at hempty
  | timeds ms =>
    cases ms with
    | nil =>
      unfold save_chat_messages
      rw [hfetch]
      exact ⟨rfl, rfl⟩
    | cons m ms => simp [Batch.isEmpty] at hempty

/-- Witness for C7 at a concrete store and an empty batch. -/
theorem save_bulk_empty_batch_raises_witness :
    (save_chat_messages cfg0 c2State 100 1 true "u" "s" "A" (Batch.convs []) none).result
      = .error Err.indexError
    ∧ (save_chat_messages cfg0 c2State 100 1 true "u" "s" "A" (Batch.convs []) none).state
      = c2State :=
  save_bulk_empty_batch_raises cfg0 c2State 100 1 true "u" "s" "A" none (Batch.convs [])
    [⟨"user", .blocks [⟨"hi"⟩], 5⟩] (by decide) (by decide)

/-- C6: `save_chat_messages` never touches the aggregate cache: on every path
(fetch failure, empty batch, put failure, successful write) the cache leaves
the call exactly as it entered it. -/
theorem save_bulk_preserves_cache
    (cfg : Config) (st : StoreState) (nowMs nowS : Int) (putOk : Bool)
    (u s a : String) (batch : Batch) (mh : Option Int) :
    (save_chat_messages cfg st nowMs nowS putOk u s a batch mh).state.cache = st.cache := by
  unfold save_chat_messages
  cases hf : fetch_chat_with_timestamp st u s a with
  | error e => rfl
  | ok existing =>
    cases batch with
    | convs ms =>
      cases ms with
      | nil => rfl
      | cons m ms => unfold saveBulkTail; cases putOk <;> rfl
    | timeds ms =>
      cases ms with
      | nil => rfl
      | cons m ms => unfold saveBulkTail; cases putOk <;> rfl

/-- C8: an aggregate-cache entry whose age is at least `_cache_ttl` is not
served: `fetch_all_chats` takes exactly the fresh-query path. -/
theorem aggregate_expired_entry_not_served
    (st : StoreState) (now : Int) (dc : Bool) (u s : String) (e : CacheEntry)
    (hfind : dictFind st.cache (u ++ ":" ++ s) = some e)
    (hold : cacheTtl ≤ now - e.timestamp) :
    fetch_all_chats st now dc u s = fetchFresh st now dc u s (u ++ ":" ++ s) := by
  simp only [fetch_all_chats, hfind]
  rw [if_neg (not_lt.mpr hold)]

/-- Witness for C8: an entry fetched at time 0 queried at time 10 is stale. -/
theorem aggregate_expired_entry_not_served_witness :
    fetch_all_chats c8State 10 false "u" "s" = fetchFresh c8State 10 false "u" "s" ("u" ++ ":" ++ "s") :=
  aggregate_expired_entry_not_served c8State 10 false "u" "s"
    ⟨0, [⟨"user", .blocks [⟨"stale"⟩], none⟩]⟩ (by decide) (by decide)

/-- C2 counterexample: at a stored conversation `[{user,"hi",t=5}]` and an
incoming same-role (user) message, the suppressed `save_chat_message` does
NOT return the conversation with timestamps stripped — it returns the stored
`TimestampedMessage` list unchanged, timestamp attribute included. -/
theorem save_message_suppressed_not_stripped_cex :
    (save_chat_message cfg0 c2State 100 1 true "u" "s" "A"
        (InMsg.conv ⟨"user", Content.blocks [⟨"again"⟩]⟩) none).result
      ≠ .ok (remove_timestamps [⟨"user", Content.blocks [⟨"hi"⟩], 5⟩])
    ∧ (save_chat_message cfg0 c2State 100 1 true "u" "s" "A"
        (InMsg.conv ⟨"user", Content.blocks [⟨"again"⟩]⟩) none).result
      = .ok [⟨"user", Content.blocks [⟨"hi"⟩], some 5⟩]
    ∧ fetch_chat_with_timestamp c2State "u" "s" "A"
      = .ok [⟨"user", Content.blocks [⟨"hi"⟩], 5⟩] := by
  decide

/-- C2 as amended: when the stored conversation is non-empty and its last
entry's role equals the incoming message's role, `save_chat_message` performs
no write (table and cache are untouched) and returns the existing
conversation with its timestamps retained, not stripped. -/
theorem save_message_suppressed_no_write
    (cfg : Config) (st : StoreState) (nowMs nowS : Int) (putOk : Bool)
    (u s a : String) (m : InMsg) (mh : Option Int)
    (existing : List TimestampedMessage)
    (hfetch : fetch_chat_with_timestamp st u s a = .ok existing)
    (hsup : is_same_role_as_last_message existing m = true) :
    (save_chat_message cfg st nowMs nowS putOk u s a m mh).state = st
    ∧ (save_chat_message cfg st nowMs nowS putOk u s a m mh).result
        = .ok (existing.map toPy) := by
  simp [save_chat_message, hfetch, hsup]

/-- Witness for the amended C2 at the concrete suppressed save above. -/
theorem save_message_suppressed_no_write_witness :
    (save_chat_message cfg0 c2State 100 1 true "u" "s" "A"
        (InMsg.conv ⟨"user", Content.blocks [⟨"again"⟩]⟩) none).state = c2State
    ∧ (save_chat_message cfg0 c2State 100 1 true "u" "s" "A"
        (InMsg.conv ⟨"user", Content.blocks [⟨"again"⟩]⟩) none).result
      = .ok ([⟨"user", Content.blocks [⟨"hi"⟩], 5⟩].map toPy) :=
  save_message_suppressed_no_write cfg0 c2State 100 1 true "u" "s" "A"
    (InMsg.conv ⟨"user", Content.blocks [⟨"again"⟩]⟩) none
    [⟨"user", Content.blocks [⟨"hi"⟩], 5⟩] (by decide) (by decide)

/-- C9: when the suppression check passes and the subsequent `put_item`
fails, the error is re-raised with the table unchanged, but the aggregate
cache entry for `(user_id, session_id)` has already been deleted: a failed
save never leaves the cache holding the pre-save aggregate view. -/
theorem save_message_failed_put_cache_already_invalidated
    (cfg : Config) (st : StoreState) (nowMs nowS : Int)
    (u s a : String) (m : InMsg) (mh : Option Int)
    (existing : List TimestampedMessage)
    (hfetch : fetch_chat_with_timestamp st u s a = .ok existing)
    (hsup : is_same_role_as_last_message existing m = false) :
    (save_chat_message cfg st nowMs nowS false u s a m mh).result = .error Err.storeError
    ∧ (save_chat_message cfg st nowMs nowS false u s a m mh).state.table = st.table
    ∧ dictFind (save_chat_message cfg st nowMs nowS false u s a m mh).state.cache
        (u ++ ":" ++ s) = none := by
  simp [save_chat_message, hfetch, hsup, dictFind_dictDel]

/-- Witness for C9: a failing put after an assistant message on a user-ended
conversation. -/
theorem save_message_failed_put_cache_already_invalidated_witness :
    (save_chat_message cfg0 c2State 100 1 false "u" "s" "A"
        (InMsg.conv ⟨"assistant", Content.blocks [⟨"hello"⟩]⟩) none).result
      = .error Err.storeError
    ∧ (save_chat_message cfg0 c2State 100 1 false "u" "s" "A"
        (InMsg.conv ⟨"assistant", Content.blocks [⟨"hello"⟩]⟩) none).state.table
      = c2State.table
    ∧ dictFind (save_chat_message cfg0 c2State 100 1 false "u" "s" "A"
        (InMsg.conv ⟨"assistant", Content.blocks [⟨"hello"⟩]⟩) none).state.cache
        ("u" ++ ":" ++ "s") = none :=
  save_message_failed_put_cache_already_invalidated cfg0 c2State 100 1 "u" "s" "A"
    (InMsg.conv ⟨"assistant", Content.blocks [⟨"hello"⟩]⟩) none
    [⟨"user", Content.blocks [⟨"hi"⟩], 5⟩] (by decide) (by decide)

/-- C5: a non-suppressed `save_chat_message` deletes the aggregate-cache
entry for `(user_id, session_id)`, so any later `fetch_all_chats` for that
pair misses the cache and takes the fresh-query path over the saved state. -/
theorem save_message_invalidates_aggregate_cache
    (cfg : Config) (st : StoreState) (nowMs nowS now2 : Int) (dc : Bool)
    (u s a : String) (m : InMsg) (mh : Option Int)
    (existing : List TimestampedMessage)
    (hfetch : fetch_chat_with_timestamp st u s a = .ok existing)
    (hsup : is_same_role_as_last_message existing m = false) :
    dictFind (save_chat_message cfg st nowMs nowS true u s a m mh).state.cache
        (u ++ ":" ++ s) = none
    ∧ fetch_all_chats (save_chat_message cfg st nowMs nowS true u s a m mh).state now2 dc u s
        = fetchFresh (save_chat_message cfg st nowMs nowS true u s a m mh).state now2 dc u s
            (u ++ ":" ++ s) := by
  have hnone : dictFind (save_chat_message cfg st nowMs nowS true u s a m mh).state.cache
      (u ++ ":" ++ s) = none := by
    simp only [save_chat_message, hfetch, hsup, Bool.false_eq_true, if_false, if_true]
    exact dictFind_dictDel _ _
  refine ⟨hnone, ?_⟩
  simp only [fetch_all_chats, hnone]

/-- Witness for C5: a successful assistant save on a user-ended conversation. -/
theorem save_message_invalidates_aggregate_cache_witness :
    dictFind (save_chat_message cfg0 c2State 100 1 true "u" "s" "A"
        (InMsg.conv ⟨"assistant", Content.blocks [⟨"hello"⟩]⟩) none).state.cache
        ("u" ++ ":" ++ "s") = none
    ∧ fetch_all_chats (save_chat_message cfg0 c2State 100 1 true "u" "s" "A"
        (InMsg.conv ⟨"assistant", Content.blocks [⟨"hello"⟩]⟩) none).state 2 false "u" "s"
      = fetchFresh (save_chat_message cfg0 c2State 100 1 true "u" "s" "A"
        (InMsg.conv ⟨"assistant", Content.blocks [⟨"hello"⟩]⟩) none).state 2 false "u" "s"
          ("u" ++ ":" ++ "s") :=
  save_message_invalidates_aggregate_cache cfg0 c2State 100 1 2 false "u" "s" "A"
    (InMsg.conv ⟨"assistant", Content.blocks [⟨"hello"⟩]⟩) none
    [⟨"user", Content.blocks [⟨"hi"⟩], 5⟩] (by decide) (by decide)

/-- C1: on an aggregate-cache miss, `fetch_all_chats` returns the
concatenation of every agent's decoded messages (`processItems` over the
prefix query) sorted by timestamp ascending with timestamps stripped: the
sorted list is ordered by `tsLe` and is a permutation of the concatenation;
in particular, with agent A holding `[{user,"hi",t=1}]` and agent B holding
`[{assistant,"hello",t=2}]`, it returns
`[{user,"hi"}, {assistant,"[B] hello"}]` in that order. -/
theorem fetch_aggregate_merge_sorted
    (st : StoreState) (now : Int) (dc : Bool) (u s : String)
    (msgs : List TimestampedMessage)
    (hmiss : dictFind st.cache (u ++ ":" ++ s) = none)
    (hproc : processItems (queryItems st.table u s) = .ok msgs) :
    (fetch_all_chats st now dc u s).result = .ok (remove_timestamps (sortByTs msgs))
    ∧ List.Sorted tsLe (sortByTs msgs)
    ∧ List.Perm (sortByTs msgs) msgs
    ∧ (fetch_all_chats exampleState 0 false "u" "s").result
        = .ok [⟨"user", Content.blocks [⟨"hi"⟩], none⟩,
               ⟨"assistant", Content.blocks [⟨"[B] hello"⟩], none⟩] := by
  refine ⟨?_, List.sorted_insertionSort tsLe msgs, List.perm_insertionSort tsLe msgs,
    by decide⟩
  simp only [fetch_all_chats, hmiss]
  cases hi : (queryItems st.table u s).isEmpty with
  | true =>
    have hq : queryItems st.table u s = [] := List.isEmpty_iff.mp hi
    rw [hq] at hproc
    simp only [processItems] at hproc
    cases hproc
    simp [fetchFresh, hq, sortByTs, List.insertionSort, remove_timestamps]
  | false =>
    simp [fetchFresh, hi, hproc]

/-- Witness for C1 at the two-agent store of the claim's example. -/
theorem fetch_aggregate_merge_sorted_witness :
    (fetch_all_chats exampleState 0 false "u" "s").result
      = .ok (remove_timestamps (sortByTs
          [⟨"user", Content.blocks [⟨"hi"⟩], 1⟩,
           ⟨"assistant", Content.blocks [⟨"[B] hello"⟩], 2⟩]))
    ∧ List.Sorted tsLe (sortByTs
        [⟨"user", Content.blocks [⟨"hi"⟩], 1⟩,
         ⟨"assistant", Content.blocks [⟨"[B] hello"⟩], 2⟩])
    ∧ List.Perm (sortByTs [⟨"user", Content.blocks [⟨"hi"⟩], 1⟩,
         ⟨"assistant", Content.blocks [⟨"[B] hello"⟩], 2⟩])
        [⟨"user", Content.blocks [⟨"hi"⟩], 1⟩,
           ⟨"assistant", Content.blocks [⟨"[B] hello"⟩], 2⟩]
    ∧ (fetch_all_chats exampleState 0 false "u" "s").result
        = .ok [⟨"user", Content.blocks [⟨"hi"⟩], none⟩,
               ⟨"assistant", Content.blocks [⟨"[B] hello"⟩], none⟩] :=
  fetch_aggregate_merge_sorted exampleState 0 false "u" "s"
    [⟨"user", Content.blocks [⟨"hi"⟩], 1⟩,
     ⟨"assistant", Content.blocks [⟨"[B] hello"⟩], 2⟩]
    (by decide) (by decide)

/-- C3: during the aggregate merge, every message of an item is transformed
by `transformMsg` called with the agent id `item['SK'].split('#')[1]`; an
assistant message's content is rewritten to a single text block holding
`"[" + agent_id + "] "` prefixed to the first text of its content, while a
message of any other role is never prefixed (its content is only normalized
to a block list if it was not one). -/
theorem aggregate_assistant_agent_tag
    (it : TableItem) (ms : List StoredMsg) (ag : String)
    (tms : List TimestampedMessage)
    (hconv : it.conversation = some (ConvVal.list ms))
    (hag : splitAgent it.SK = some ag)
    (hok : processItems [it] = .ok tms) :
    List.Forall₂ (fun sm tm => transformMsg ag sm = .ok tm) ms tms
    ∧ (∀ (sm : StoredMsg) (tm : TimestampedMessage) (c : Content) (r : String),
        transformMsg ag sm = .ok tm → sm.content = some c → sm.role = some r →
        ((r = assistantRole →
            ∃ t, firstTextVal c = some t
              ∧ tm.content = Content.blocks [⟨"[" ++ ag ++ "] " ++ t⟩])
         ∧ (r ≠ assistantRole → tm.content = normalizeContent c ∧ tm.role = r))) := by
  constructor
  · simp only [processItems, hconv, hag] at hok
    cases hta : transformAll ag ms with
    | error e => rw [hta] at hok; cases hok
    | ok tms2 =>
      rw [hta] at hok
      simp only [processItems] at hok
      cases hok
      simpa using transformAll_forall2 ag ms tms2 hta
  · intro sm tm c r htr hc hr
    simp only [transformMsg, hc, hr] at htr
    constructor
    · intro hra
      rw [if_pos hra] at htr
      cases hft : firstTextVal c with
      | none => rw [hft] at htr; cases htr
      | some t =>
        rw [hft] at htr
        cases hts : sm.timestamp with
        | none => rw [hts] at htr; cases htr
        | some t2 =>
          rw [hts] at htr
          cases htr
          exact ⟨t, rfl, rfl⟩
    · intro hra
      rw [if_neg hra] at htr
      cases hts : sm.timestamp with
      | none => rw [hts] at htr; cases htr
      | some t2 =>
        rw [hts] at htr
        cases htr
        exact ⟨rfl, rfl⟩

/-- Witness for C3 at agent B's item from the example store. -/
theorem aggregate_assistant_agent_tag_witness :
    List.Forall₂ (fun sm tm => transformMsg "B" sm = .ok tm)
      [⟨some "assistant", some (Content.blocks [⟨"hello"⟩]), some 2⟩]
      [⟨"assistant", Content.blocks [⟨"[B] hello"⟩], 2⟩]
    ∧ (∀ (sm : StoredMsg) (tm : TimestampedMessage) (c : Content) (r : String),
        transformMsg "B" sm = .ok tm → sm.content = some c → sm.role = some r →
        ((r = assistantRole →
            ∃ t, firstTextVal c = some t
              ∧ tm.content = Content.blocks [⟨"[" ++ "B" ++ "] " ++ t⟩])
         ∧ (r ≠ assistantRole → tm.content = normalizeContent c ∧ tm.role = r))) :=
  aggregate_assistant_agent_tag
    ⟨"u", "s#B", some (.list [⟨some "assistant", some (Content.blocks [⟨"hello"⟩]), some 2⟩]), none⟩
    [⟨some "assistant", some (Content.blocks [⟨"hello"⟩]), some 2⟩] "B"
    [⟨"assistant", Content.blocks [⟨"[B] hello"⟩], 2⟩]
    (by decide) (by decide) (by decide)

/-- C4 counterexample: a record missing its `timestamp` key in agent B's
item is NOT skipped — the whole aggregate call fails with the `KeyError`,
even though agent A's item is intact. -/
theorem aggregate_malformed_record_fatal_cex :
    (fetch_all_chats c4State 0 false "u" "s").result = .error (Err.keyError "timestamp")
    ∧ (fetch_all_chats c4State 0 false "u" "s").state = c4State := by
  decide

/-- C4 as amended: the only items the aggregate merge skips are those whose
`conversation` attribute is not a list; removing such an item from the
query result leaves the processed output unchanged, so every other agent's
messages still appear and the call does not fail on its account. -/
theorem aggregate_nonlist_item_skipped
    (pre post : List TableItem) (bad : TableItem)
    (h : ∀ ms, bad.conversation ≠ some (ConvVal.list ms)) :
    processItems (pre ++ bad :: post) = processItems (pre ++ post) := by
  induction pre with
  | nil =>
    simp only [List.nil_append]
    cases hv : bad.conversation with
    | none => simp [processItems, hv]
    | some v =>
      cases v with
      | notList => simp [processItems, hv]
      | list ms => exact absurd hv (h ms)
  | cons p pre ih =>
    simp only [List.cons_append, processItems, List.append_eq, ih]

/-- Agent A's intact item. -/
def itemA : TableItem :=
  ⟨"u", "s#A", some (.list [⟨some "user", some (Content.blocks [⟨"hi"⟩]), some 1⟩]), none⟩

/-- Agent B's intact item. -/
def itemB : TableItem :=
  ⟨"u", "s#B", some (.list [⟨some "assistant", some (Content.blocks [⟨"hello"⟩]), some 2⟩]), none⟩

/-- Agent C's item whose `conversation` attribute is not a list. -/
def badItemC : TableItem := ⟨"u", "s#C", some ConvVal.notList, none⟩

/-- Witness for the amended C4: dropping the non-list item between two
intact agents leaves the processed output unchanged. -/
theorem aggregate_nonlist_item_skipped_witness :
    processItems ([itemA] ++ badItemC :: [itemB]) = processItems ([itemA] ++ [itemB]) :=
  aggregate_nonlist_item_skipped [itemA] [itemB] badItemC
    (fun ms h2 => by cases h2)
